/-
Verification of the Billogram v2 API Python client library (billogram_api.py)
against its natural-language specification.

This file shallowly embeds the parts of the library that the claims concern:

* the JSON value model (Python objects produced by `resp.json()`),
* the exception hierarchy rooted at `BillogramAPIError` (as `ApiErrorKind`
  together with the parent relation of the Python classes),
* `BillogramAPI._check_api_response` (the response classifier),
* `SingletonObject.refresh` / `SingletonObject.update` /
  `BillogramObject.perform_event` (snapshot replacement),
* `Query` (filter/order/page_size setters, cached count, `total_pages`,
  `iter_all` with its `copy.copy` snapshot), and
* `BillogramClass.create_and_send` (compensating delete).

Remote I/O is modelled by passing the HTTP response (or the server's
behaviour, as a function) explicitly to each operation; everything else is a
direct translation of the Python source.
-/
import Mathlib

namespace Billogram

/-! ## JSON values

Python values produced by `json.loads` on a response body: `None`, booleans,
numbers (the claims involve only integers), strings, lists and dicts.  A dict
is an association list of string keys; lookups use the first matching entry.
-/

inductive Json where
  | null
  | bool (b : Bool)
  | num (n : Int)
  | str (s : String)
  | arr (xs : List Json)
  | obj (fields : List (String × Json))

/-- Python truthiness (`if not status:`): `None`, `False`, `0`, `""`, `[]`
and `{}` are falsy, everything else truthy. -/
def jTruthy : Json → Bool
  | .null => false
  | .bool b => b
  | .num n => n != 0
  | .str s => s != ""
  | .arr xs => !xs.isEmpty
  | .obj fs => !fs.isEmpty

/-- Python `==` between an arbitrary value and a string literal: true exactly
for an equal string. -/
def jEqStr : Json → String → Bool
  | .str s, t => s == t
  | _, _ => false

/-- Python `str()` of a JSON value, used only inside human-readable error
messages (`'...{}...'.format(value)`); container rendering is abbreviated
since no claim inspects those messages. -/
def pyStr : Json → String
  | .null => "None"
  | .bool true => "True"
  | .bool false => "False"
  | .num n => toString n
  | .str s => s
  | .arr _ => "[list]"
  | .obj _ => "[dict]"

/-! ## The exception hierarchy (billogram_api.py lines 48-132) -/

inductive ApiErrorKind where
  | billogramAPIError
  | serviceMalfunctioning
  | requestForm
  | permissionDenied
  | invalidAuthentication
  | notAuthorized
  | requestData
  | unknownField
  | missingField
  | invalidFieldCombination
  | invalidFieldValue
  | readOnlyField
  | invalidObjectState
  | objectNotFound
  | objectNotAvailableYet
deriving DecidableEq, Repr

/-- The superclass chain of each exception class, itself included, mirroring
the `class X(Y):` declarations of the source. -/
def ancestors : ApiErrorKind → List ApiErrorKind
  | .billogramAPIError => [.billogramAPIError]
  | .serviceMalfunctioning => [.serviceMalfunctioning, .billogramAPIError]
  | .requestForm => [.requestForm, .billogramAPIError]
  | .permissionDenied => [.permissionDenied, .billogramAPIError]
  | .invalidAuthentication =>
      [.invalidAuthentication, .permissionDenied, .billogramAPIError]
  | .notAuthorized => [.notAuthorized, .permissionDenied, .billogramAPIError]
  | .requestData => [.requestData, .billogramAPIError]
  | .unknownField => [.unknownField, .requestData, .billogramAPIError]
  | .missingField => [.missingField, .requestData, .billogramAPIError]
  | .invalidFieldCombination =>
      [.invalidFieldCombination, .requestData, .billogramAPIError]
  | .invalidFieldValue => [.invalidFieldValue, .requestData, .billogramAPIError]
  | .readOnlyField => [.readOnlyField, .requestData, .billogramAPIError]
  | .invalidObjectState =>
      [.invalidObjectState, .requestData, .billogramAPIError]
  | .objectNotFound => [.objectNotFound, .requestData, .billogramAPIError]
  | .objectNotAvailableYet =>
      [.objectNotAvailableYet, .objectNotFound, .requestData,
       .billogramAPIError]

/-- `isSubclassOf a b`: an instance of `a` is caught by an `except b:`
handler (Python `issubclass`). -/
def isSubclassOf (a b : ApiErrorKind) : Bool :=
  ancestors a |>.contains b

/-- A raised `BillogramAPIError`: the class, the `message` argument, and the
keyword data split by `BillogramAPIError.__init__` into `field`,
`field_path` and `extra_data` (lines 50-62). -/
structure ApiError where
  kind : ApiErrorKind
  message : Json
  field : Option Json
  field_path : Option Json
  extra_data : Option (List (String × Json))

/-- `BillogramAPIError.__init__(self, message, **kwargs)`: `field` and
`field_path` are popped from the keyword data, the rest becomes
`extra_data`, normalised to `None` when empty. -/
def mkError (kind : ApiErrorKind) (message : Json)
    (kwargs : List (String × Json)) : ApiError :=
  let extra := kwargs.filter fun p => p.1 != "field" && p.1 != "field_path"
  { kind := kind
    message := message
    field := kwargs.lookup "field"
    field_path := kwargs.lookup "field_path"
    extra_data := if extra.isEmpty then none else some extra }

/-- A Python exception escaping `_check_api_response`: either a constructed
`BillogramAPIError` subclass instance, the `AssertionError` of a failed
`assert`, or a built-in error (`TypeError`, `KeyError`, `AttributeError`,
`ValueError`) named by its class. -/
inductive PyErr where
  | api (e : ApiError)
  | assertionError
  | py (name : String)

/-- Outcome of `BillogramAPI._check_api_response`: the decoded envelope (a
JSON dict) on success, the raw body for non-JSON expected content, or a
raised exception. -/
inductive ClassifyResult where
  | ok (envelope : Json)
  | raw (content : String)
  | err (e : PyErr)

/-- An HTTP response as the classifier sees it: status code, the
`content-type` header, the result of `resp.json()` (`none` when the body is
not parseable JSON) and the raw body `resp.content`. -/
structure HttpResponse where
  status_code : Nat
  content_type : String
  json : Option Json
  content : String

/-- `requests`' `resp.ok`: true for status codes below 400. -/
def respOk (resp : HttpResponse) : Bool :=
  resp.status_code < 400

/-- Lines 201-203: `if not resp.ok or expect_content_type is None:
expect_content_type = 'application/json'`. -/
def effectiveExpect (resp : HttpResponse) (e : Option String) : String :=
  if respOk resp then e.getD "application/json" else "application/json"

/-- Lines 284-292: the fixed status-string → exception-class table; any
unmapped status falls back to `RequestDataError`.  A non-string envelope
status never equals any of the string keys, hence also maps to the
default. -/
def tableGet (status : Json) : ApiErrorKind :=
  if jEqStr status "MISSING_QUERY_PARAMETER" then .requestForm
  else if jEqStr status "INVALID_QUERY_PARAMETER" then .requestForm
  else if jEqStr status "INVALID_PARAMETER" then .invalidFieldValue
  else if jEqStr status "INVALID_PARAMETER_COMBINATION" then
    .invalidFieldCombination
  else if jEqStr status "READ_ONLY_PARAMETER" then .readOnlyField
  else if jEqStr status "UNKNOWN_PARAMETER" then .unknownField
  else if jEqStr status "INVALID_OBJECT_STATE" then .invalidObjectState
  else .requestData

/-- The call `cls(**errordata)` of line 292.  `BillogramAPIError.__init__`
takes `message` as its required first parameter, so the splat succeeds only
when `errordata` is a dict containing a `message` key; splatting a non-dict,
omitting `message`, or supplying a key colliding with the `self` parameter
raises `TypeError` before any API error exists. -/
def constructError (kind : ApiErrorKind) (errordata : Json) : ClassifyResult :=
  match errordata with
  | .obj fs =>
    if (fs.lookup "self").isSome then .err (.py "TypeError")
    else
      match fs.lookup "message" with
      | some m =>
          .err (.api (mkError kind m (fs.filter fun p => p.1 != "message")))
      | none => .err (.py "TypeError")
  | _ => .err (.py "TypeError")

/-- Lines 205-219: the `resp.status_code in range(500, 600)` branch. -/
def serverErrorBranch (resp : HttpResponse) (ect : String) : ClassifyResult :=
  if resp.content_type = ect ∧ ect = "application/json" then
    match resp.json with
    | none => .err (.py "ValueError")
    | some (.obj fs) =>
      match fs.lookup "data" with
      | some (.obj ds) =>
          .err (.api (mkError .serviceMalfunctioning
            (.str ("Billogram API reported a server error: "
              ++ pyStr ((fs.lookup "status").getD .null) ++ " - "
              ++ pyStr ((ds.lookup "message").getD .null))) []))
      | some _ => .err (.py "AttributeError")
      | none => .err (.py "AttributeError")
    | some _ => .err (.py "AttributeError")
  else
    .err (.api (mkError .serviceMalfunctioning
      (.str "Billogram API reported a server error") []))

/-- Lines 221-232: the branch taken when the response content-type differs
from the expected one. -/
def contentTypeMismatchBranch (resp : HttpResponse) : ClassifyResult :=
  if resp.content_type = "application/json" then
    match resp.json with
    | none => .err (.py "ValueError")
    | some (.obj fs) =>
      if jEqStr ((fs.lookup "status").getD .null) "NOT_AVAILABLE_YET" then
        .err (.api (mkError .objectNotAvailableYet
          (.str "Object not available yet") []))
      else
        .err (.api (mkError .serviceMalfunctioning
          (.str "Billogram API returned unexpected content type") []))
    | some _ => .err (.py "AttributeError")
  else
    .err (.api (mkError .serviceMalfunctioning
      (.str "Billogram API returned unexpected content type") []))

/-- Lines 249-267: the `resp.status_code == 403` branch. -/
def branch403 (status : Json) : ClassifyResult :=
  if jEqStr status "PERMISSION_DENIED" then
    .err (.api (mkError .notAuthorized
      (.str "Not allowed to perform the requested operation") []))
  else if jEqStr status "INVALID_AUTH" then
    .err (.api (mkError .invalidAuthentication
      (.str ("The user/key combination is wrong, check the credentials "
        ++ "used and possibly generate a new set")) []))
  else if jEqStr status "MISSING_AUTH" then
    .err (.api (mkError .requestForm
      (.str "No authentication data was given") []))
  else
    .err (.api (mkError .permissionDenied
      (.str ("Permission denied, status=" ++ pyStr status)) []))

/-- Lines 234-292 for a parsed JSON dict envelope: envelope validation, then
the 403 / 404 / 405 / `"OK"` / table branches in source order. -/
def envelopeBranch (code : Nat) (fs : List (String × Json)) : ClassifyResult :=
  let status := (fs.lookup "status").getD .null
  if jTruthy status = false then
    .err (.api (mkError .serviceMalfunctioning
      (.str "Response data missing status field") []))
  else if (fs.lookup "data").isNone then
    .err (.api (mkError .serviceMalfunctioning
      (.str "Response data missing data field") []))
  else if code = 403 then branch403 status
  else if code = 404 then
    -- BUG NOTE: both arms raise plain `ObjectNotFoundError`; the dedicated
    -- `ObjectNotAvailableYetError` subclass (line 130) is not used here.
    if jEqStr status "NOT_AVAILABLE_YET" then
      .err (.api (mkError .objectNotFound
        (.str "Object not available yet") []))
    else
      .err (.api (mkError .objectNotFound (.str "Object not found") []))
  else if code = 405 then
    .err (.api (mkError .requestForm (.str "Invalid HTTP method") []))
  else if jEqStr status "OK" then .ok (.obj fs)
  else constructError (tableGet status) ((fs.lookup "data").getD (.obj []))

/-- `BillogramAPI._check_api_response` (lines 199-292). -/
def check_api_response (resp : HttpResponse) (expect_content_type : Option String) :
    ClassifyResult :=
  let ect := effectiveExpect resp expect_content_type
  if 500 ≤ resp.status_code ∧ resp.status_code < 600 then
    serverErrorBranch resp ect
  else if resp.content_type ≠ ect then
    contentTypeMismatchBranch resp
  else if ect = "application/json" then
    match resp.json with
    | none => .err (.py "ValueError")
    | some (.obj fs) => envelopeBranch resp.status_code fs
    | some _ => .err (.py "AttributeError")
  else
    .raw resp.content

/-- A JSON response, as produced by `requests` for an
`application/json`-typed body. -/
def mkJsonResp (code : Nat) (fs : List (String × Json)) : HttpResponse :=
  { status_code := code
    content_type := "application/json"
    json := some (.obj fs)
    content := "" }

/-! ## Remote object snapshots (SingletonObject / SimpleObject / BillogramObject)

A remote object's local state is just `self._data : Option Json` (`None`
while lazy).  `refresh` (line 393), `update` (line 399) and `perform_event`
(line 656) all run `resp = <http call>` followed by `self._data =
resp['data']`; if the call raises, the assignment never executes.  Each
operation below takes the HTTP response of its request explicitly; the
request body of `update`/`perform_event` does not enter response handling.
-/

/-- State of a remote-object method call: the snapshot afterwards and the
exception it raised, if any. -/
structure CallOutcome where
  state : Option Json
  raised : Option PyErr

/-- `self._data = resp['data']` guarded by the call's outcome: on a raised
classification error the snapshot is untouched; on success the snapshot is
wholly replaced by the envelope's `data` field (`resp['data']` would raise
`KeyError` were the key absent, and `TypeError` on a raw bytes result). -/
def snapshotAssign (st : Option Json) (r : ClassifyResult) : CallOutcome :=
  match r with
  | .ok (.obj fs) =>
    match fs.lookup "data" with
    | some d => { state := some d, raised := none }
    | none => { state := st, raised := some (.py "KeyError") }
  | .ok _ => { state := st, raised := some (.py "TypeError") }
  | .raw _ => { state := st, raised := some (.py "TypeError") }
  | .err e => { state := st, raised := some e }

/-- `SingletonObject.refresh` (lines 393-397), given the GET response. -/
def refreshApply (st : Option Json) (getResp : HttpResponse) : CallOutcome :=
  snapshotAssign st (check_api_response getResp none)

/-- `SingletonObject.update` (lines 399-403), given the PUT response. -/
def updateApply (st : Option Json) (putResp : HttpResponse) : CallOutcome :=
  snapshotAssign st (check_api_response putResp none)

/-- `BillogramObject.perform_event` (lines 656-662), given the POST
response to `<url>/command/<event>`. -/
def performEventApply (st : Option Json) (postResp : HttpResponse) : CallOutcome :=
  snapshotAssign st (check_api_response postResp none)

/-- The class of the API error raised by a call, when one was. -/
def raisedApiKind (o : CallOutcome) : Option ApiErrorKind :=
  match o.raised with
  | some (.api e) => some e.kind
  | _ => none

/-! ## Query (lines 441-601)

Filter and order specifications are string-valued dicts.  Python dict
equality and truthiness are modelled on association lists via lookups.
-/

abbrev Dict := List (String × String)

/-- Python `d1 == d2` on dicts: the same key set with equal values
(order-independent, first-entry lookup semantics). -/
def dictEqb (d₁ d₂ : Dict) : Bool :=
  (d₁.all fun e => d₂.lookup e.1 == some e.2) &&
  (d₂.all fun e => d₁.lookup e.1 == some e.2)

/-- `{**base, **upd}` i.e. `base.update(upd)`: entries of `upd` override
entries of `base`. -/
def dictUpdate (base upd : Dict) : Dict :=
  (base.filter fun e => (upd.lookup e.1).isNone) ++ upd

/-- Local state of a `Query` (lines 453-458); `_type_class` carries no
state that the claims concern. -/
structure QueryState where
  filter : Dict
  order : Dict
  page_size : Int
  count_cached : Option Int

/-- `Query.__init__`: empty filter and order, page size 100, no cached
count. -/
def initQuery : QueryState :=
  { filter := [], order := [], page_size := 100, count_cached := none }

/-- The filter-setter validation (lines 514-522): a non-empty specification
must carry `filter_type`, `filter_field` and `filter_value`, with
`filter_type` among the four allowed strings. -/
def filterValidB (v : Dict) : Bool :=
  (v.lookup "filter_type").isSome &&
  (v.lookup "filter_field").isSome &&
  (v.lookup "filter_value").isSome &&
  match v.lookup "filter_type" with
  | some t => t == "field" || t == "field-prefix" || t == "field-search"
      || t == "special"
  | none => false

/-- The order-setter validation (lines 536-537). -/
def orderValidB (v : Dict) : Bool :=
  (v.lookup "order_field").isSome &&
  (v.lookup "order_direction").isSome &&
  match v.lookup "order_direction" with
  | some t => t == "asc" || t == "desc"
  | none => false

/-- `Query.filter` setter (lines 509-527): early return when the value
equals the current filter; otherwise validate a non-empty value (a failed
`assert` raises before any mutation), store a copy, and clear the cached
count. -/
def filterSetE (q : QueryState) (v : Dict) : Except PyErr QueryState :=
  if dictEqb v q.filter then .ok q
  else if v.isEmpty then
    .ok { q with filter := [], count_cached := none }
  else if filterValidB v then
    .ok { q with filter := v, count_cached := none }
  else .error .assertionError

/-- `Query.order` setter (lines 533-541): no early return and no cache
invalidation. -/
def orderSetE (q : QueryState) (v : Dict) : Except PyErr QueryState :=
  if v.isEmpty then .ok { q with order := [] }
  else if orderValidB v then .ok { q with order := v }
  else .error .assertionError

/-- `Query.page_size` setter (lines 497-502): `assert value >= 1`. -/
def pageSizeSetE (q : QueryState) (n : Int) : Except PyErr QueryState :=
  if 1 ≤ n then .ok { q with page_size := n } else .error .assertionError

/-- `Query._get_queryargs` (lines 470-474): `{}` updated with the filter,
then with the order. -/
def queryArgs (q : QueryState) : Dict :=
  dictUpdate (dictUpdate [] q.filter) q.order

/-- The server's `meta.total_count` as a function of the request the query
issues: effective page size, page number, and the filter/order arguments. -/
abbrev SrvCount := Int → Int → Dict → Int

/-- Operations a caller can perform on a query that the count-caching
claims range over: reading `count`, and the three property setters. -/
inductive QOp where
  | readCount
  | setFilter (v : Dict)
  | setOrder (v : Dict)
  | setPageSize (n : Int)

/-- One operation on the query state, returning the number of remote
requests it issued.  Reading `count` (lines 476-484) issues one
`_make_query(1, 1)` request exactly when no count is cached, storing the
response's `meta.total_count` (lines 460-468); the setters never touch the
network (a failed `assert` leaves the state unchanged). -/
def stepQ (srv : SrvCount) (q : QueryState) : QOp → QueryState × Nat
  | .readCount =>
    match q.count_cached with
    | some _ => (q, 0)
    | none => ({ q with count_cached := some (srv 1 1 (queryArgs q)) }, 1)
  | .setFilter v =>
    match filterSetE q v with
    | .ok q' => (q', 0)
    | .error _ => (q, 0)
  | .setOrder v =>
    match orderSetE q v with
    | .ok q' => (q', 0)
    | .error _ => (q, 0)
  | .setPageSize n =>
    match pageSizeSetE q n with
    | .ok q' => (q', 0)
    | .error _ => (q, 0)

/-- Run a sequence of query operations, tallying remote requests. -/
def runQ (srv : SrvCount) (q : QueryState) : List QOp → QueryState × Nat
  | [] => (q, 0)
  | op :: ops =>
    ((runQ srv (stepQ srv q op).1 ops).1,
     (stepQ srv q op).2 + (runQ srv (stepQ srv q op).1 ops).2)

/-- `Query.total_pages` arithmetic (line 490): Python floor division
`(count + page_size - 1) // page_size`. -/
def totalPagesOf (c p : Int) : Int :=
  (c + p - 1).fdiv p

/-- The `count` property value together with the state after reading it. -/
def countProp (srv : SrvCount) (q : QueryState) : QueryState × Int :=
  match q.count_cached with
  | some c => (q, c)
  | none =>
    let c := srv 1 1 (queryArgs q)
    ({ q with count_cached := some c }, c)

/-- `Query.total_pages` (lines 487-490): reads `count` (possibly fetching)
then applies the floor-division formula with the current page size. -/
def totalPagesProp (srv : SrvCount) (q : QueryState) : QueryState × Int :=
  let (q', c) := countProp srv q
  (q', totalPagesOf c q.page_size)

/-! ## `iter_all` and `copy.copy` (lines 591-601)

`iter_all` begins by taking a *shallow* copy of the query.  To express what
that protects against, the query's dict-valued attributes are modelled as
references into a heap of dicts: `copy.copy` duplicates the reference
fields, while the setters rebind the original object's fields to freshly
allocated dicts (`self._filter = dict(value)` / `= {}` always allocates).
Scalar fields (`page_size`, `count_cached`) are copied by value.
-/

abbrev Heap := List Dict

/-- A query object with its dict-valued attributes as heap references. -/
structure QueryRef where
  filterRef : Nat
  orderRef : Nat
  page_size : Int
  count_cached : Option Int

def heapGet (h : Heap) (r : Nat) : Dict :=
  h.getD r []

/-- Dereference the query's attributes: the parameters an in-progress
iteration observes. -/
def observeQ (h : Heap) (q : QueryRef) : QueryState :=
  { filter := heapGet h q.filterRef
    order := heapGet h q.orderRef
    page_size := q.page_size
    count_cached := q.count_cached }

/-- `copy.copy(self)`: a new object whose fields hold the same values (the
same dict references and the same scalars). -/
def copyShallow (q : QueryRef) : QueryRef := q

/-- The filter setter acting on the original query object: any accepted
non-equal assignment allocates a fresh dict and rebinds `self._filter`;
a failed `assert` leaves the object untouched. -/
def setFilterRef (h : Heap) (q : QueryRef) (v : Dict) : Heap × QueryRef :=
  if dictEqb v (heapGet h q.filterRef) then (h, q)
  else if v.isEmpty then
    (h ++ [[]], { q with filterRef := h.length, count_cached := none })
  else if filterValidB v then
    (h ++ [v], { q with filterRef := h.length, count_cached := none })
  else (h, q)

/-- The order setter acting on the original query object. -/
def setOrderRef (h : Heap) (q : QueryRef) (v : Dict) : Heap × QueryRef :=
  if v.isEmpty then (h ++ [[]], { q with orderRef := h.length })
  else if orderValidB v then (h ++ [v], { q with orderRef := h.length })
  else (h, q)

/-- The page-size setter acting on the original query object. -/
def setPageSizeRef (h : Heap) (q : QueryRef) (n : Int) : Heap × QueryRef :=
  if 1 ≤ n then (h, { q with page_size := n }) else (h, q)

/-- A mutation of the original query object through its public setters. -/
inductive QueryMutation where
  | setFilter (v : Dict)
  | setOrder (v : Dict)
  | setPageSize (n : Int)

def applyMutRef (h : Heap) (q : QueryRef) : QueryMutation → Heap × QueryRef
  | .setFilter v => setFilterRef h q v
  | .setOrder v => setOrderRef h q v
  | .setPageSize n => setPageSizeRef h q n

def applyMutsRef (h : Heap) (q : QueryRef) : List QueryMutation → Heap × QueryRef
  | [] => (h, q)
  | m :: ms =>
    applyMutsRef (applyMutRef h q m).1 (applyMutRef h q m).2 ms

/-- The objects of one result page, as the server produces them for the
query parameters actually sent (filter/order arguments, page size, page
number). -/
abbrev SrvPage := QueryState → Int → List Json

/-- The object sequence produced by `iter_all` on the copied query: the
copy's `total_pages` is evaluated once (fetching the count if not cached),
then pages `1 .. total_pages` are fetched in order and their objects
yielded.  The wrapping of each data dict into a `SimpleObject` is identity
on the data. -/
def iterAllSeq (srvP : SrvPage) (srvC : SrvCount) (q : QueryState) : List Json :=
  let c := match q.count_cached with
    | some c => c
    | none => srvC 1 1 (queryArgs q)
  let tp := totalPagesOf c q.page_size
  (List.range tp.toNat).flatMap fun i => srvP q (Int.ofNat i + 1)

/-! ## `BillogramClass.create_and_send` (lines 843-861) -/

/-- The requests `create_and_send` makes, in order.  The created object is
identified by its snapshot (its `id` field determines the delete URL). -/
inductive BAction where
  | createReq (data : Json)
  | sendReq (created : Json) (method : String)
  | deleteReq (created : Json)

/-- `create_and_send(data, method)`: assert the method, POST the create,
then send; if the send raises anything, delete the just-created billogram
and re-raise the original exception (`except Exception as e: ...; raise e`).
The outcomes of the three remote calls are passed in as parameters
(`createR`/`sendR` yield the envelope `data` of the respective response;
the returned snapshot on full success is the send response's data, by
`perform_event`'s snapshot replacement). -/
def create_and_send (data : Json) (method : String)
    (createR : Except PyErr Json) (sendR : Except PyErr Json)
    (deleteR : Except PyErr Unit) :
    Except PyErr Json × List BAction :=
  if method = "Email" ∨ method = "Letter" ∨ method = "Email+Letter" then
    match createR with
    | .error e => (.error e, [.createReq data])
    | .ok created =>
      match sendR with
      | .ok sent =>
          (.ok sent, [.createReq data, .sendReq created method])
      | .error e =>
        match deleteR with
        | .ok _ =>
            (.error e,
             [.createReq data, .sendReq created method, .deleteReq created])
        | .error d =>
            (.error d,
             [.createReq data, .sendReq created method, .deleteReq created])
  else (.error .assertionError, [])

/-! ## Theorems -/

/-- C1: on a 404 response whose JSON envelope status is
`"NOT_AVAILABLE_YET"`, the classifier raises plain `ObjectNotFoundError`
(line 272) with the message "Object not available yet" — not the dedicated
`ObjectNotAvailableYetError` subclass — so a caller cannot distinguish the
two 404 cases by error kind: both the `NOT_AVAILABLE_YET` envelope and any
other 404 envelope yield the same `objectNotFound` class, which is distinct
from the `objectNotAvailableYet` class the claim (and line 130's class
definition) call for. -/
theorem check_404_not_available_yet_plain_kind :
    check_api_response
      (mkJsonResp 404
        [("status", .str "NOT_AVAILABLE_YET"), ("data", .obj [])]) none
      = .err (.api (mkError .objectNotFound
          (.str "Object not available yet") []))
    ∧ check_api_response
      (mkJsonResp 404
        [("status", .str "SOMETHING_ELSE"), ("data", .obj [])]) none
      = .err (.api (mkError .objectNotFound (.str "Object not found") []))
    ∧ ApiErrorKind.objectNotFound ≠ ApiErrorKind.objectNotAvailableYet := by
  refine ⟨rfl, rfl, by decide⟩

/-- C6: an `update` whose PUT response has status code 403 and body
`{"status": "INVALID_AUTH", "data": {}}` raises
`InvalidAuthenticationError` — a subclass of `PermissionDeniedError` — and
leaves the object's local snapshot exactly as it was, whatever it was. -/
theorem update_403_invalid_auth_no_mutation (st : Option Json) :
    (updateApply st
      (mkJsonResp 403 [("status", .str "INVALID_AUTH"), ("data", .obj [])])).state
      = st
    ∧ raisedApiKind (updateApply st
        (mkJsonResp 403 [("status", .str "INVALID_AUTH"), ("data", .obj [])]))
      = some .invalidAuthentication
    ∧ isSubclassOf .invalidAuthentication .permissionDenied = true := by
  refine ⟨rfl, rfl, rfl⟩

/-- C4: whenever the classifier accepts a response (so `refresh`, `update`
or `perform_event` succeeds), the object's whole local snapshot becomes
exactly the `data` field of the response envelope, for every prior
snapshot; in particular the outcome is identical from any two prior
snapshots — never a merge of new and old data. -/
theorem snapshot_full_replacement (st st' : Option Json)
    (resp : HttpResponse) (fs : List (String × Json)) (d : Json)
    (hok : check_api_response resp none = .ok (.obj fs))
    (hd : fs.lookup "data" = some d) :
    refreshApply st resp = { state := some d, raised := none }
    ∧ updateApply st resp = { state := some d, raised := none }
    ∧ performEventApply st resp = { state := some d, raised := none }
    ∧ refreshApply st resp = refreshApply st' resp := by
  simp [refreshApply, updateApply, performEventApply, snapshotAssign, hok, hd]

/-- Witness for `snapshot_full_replacement`: a successful 200 response with
envelope `{"status": "OK", "data": {"x": 1}}` replaces the snapshot of an
object previously holding `{"y": 2}` (and of a lazy object alike) with
`{"x": 1}`. -/
theorem snapshot_full_replacement_witness :
    refreshApply (some (.obj [("y", .num 2)]))
        (mkJsonResp 200 [("status", .str "OK"), ("data", .obj [("x", .num 1)])])
      = { state := some (.obj [("x", .num 1)]), raised := none }
    ∧ refreshApply (some (.obj [("y", .num 2)]))
        (mkJsonResp 200 [("status", .str "OK"), ("data", .obj [("x", .num 1)])])
      = refreshApply none
        (mkJsonResp 200 [("status", .str "OK"), ("data", .obj [("x", .num 1)])]) := by
  have h := snapshot_full_replacement (some (.obj [("y", .num 2)])) none
    (mkJsonResp 200 [("status", .str "OK"), ("data", .obj [("x", .num 1)])])
    [("status", .str "OK"), ("data", .obj [("x", .num 1)])]
    (.obj [("x", .num 1)]) rfl rfl
  exact ⟨h.1, h.2.2.2⟩

/-- C5: when the create step of `create_and_send` succeeds and the send
step raises, a delete request for the just-created billogram is issued
right after the failed send, and — once that delete returns — the original
send error is re-raised to the caller (should the delete itself raise, its
error propagates instead, as the final conjunct records). -/
theorem create_and_send_compensating_delete (data created : Json)
    (method : String) (e : PyErr) (deleteR : Except PyErr Unit)
    (hm : method = "Email" ∨ method = "Letter" ∨ method = "Email+Letter") :
    (create_and_send data method (.ok created) (.error e) deleteR).2
      = [.createReq data, .sendReq created method, .deleteReq created]
    ∧ (∀ u : Unit, deleteR = .ok u →
        (create_and_send data method (.ok created) (.error e) deleteR).1
          = .error e)
    ∧ (∀ d : PyErr, deleteR = .error d →
        (create_and_send data method (.ok created) (.error e) deleteR).1
          = .error d) := by
  cases deleteR with
  | ok u =>
    refine ⟨?_, ?_, ?_⟩
    · simp [create_and_send, hm]
    · simp [create_and_send, hm]
    · intro d hd
      cases hd
  | error d =>
    refine ⟨?_, ?_, ?_⟩
    · simp [create_and_send, hm]
    · intro u hu
      cases hu
    · intro d' hd
      cases hd
      simp [create_and_send, hm]

/-- Witness for `create_and_send_compensating_delete`: creating with
`{"a": 1}`, sending by `"Email"` failing with a classified invalid-state
error, and a successful delete: the action trace ends with the delete of
the created object and the invalid-state error is re-raised. -/
theorem create_and_send_compensating_delete_witness :
    (create_and_send (.obj [("a", .num 1)]) "Email"
        (.ok (.obj [("id", .str "B1")]))
        (.error (.api (mkError .invalidObjectState (.str "m") [])))
        (.ok ())).2
      = [.createReq (.obj [("a", .num 1)]),
         .sendReq (.obj [("id", .str "B1")]) "Email",
         .deleteReq (.obj [("id", .str "B1")])]
    ∧ (create_and_send (.obj [("a", .num 1)]) "Email"
        (.ok (.obj [("id", .str "B1")]))
        (.error (.api (mkError .invalidObjectState (.str "m") [])))
        (.ok ())).1
      = .error (.api (mkError .invalidObjectState (.str "m") [])) := by
  have h := create_and_send_compensating_delete (.obj [("a", .num 1)])
    (.obj [("id", .str "B1")]) "Email"
    (.api (mkError .invalidObjectState (.str "m") [])) (.ok ()) (Or.inl rfl)
  exact ⟨h.1, h.2.1 () rfl⟩

/-- Python's floor division `(c + p - 1) // p` is the ceiling of `c / p`
for a nonnegative count and a positive page size. -/
lemma totalPagesOf_eq_ceil (c p : Int) (_hc : 0 ≤ c) (hp : 1 ≤ p) :
    totalPagesOf c p = ⌈(c : ℚ) / (p : ℚ)⌉ := by
  have hp0 : (0 : ℤ) < p := by omega
  have hpq : (0 : ℚ) < (p : ℚ) := by exact_mod_cast hp0
  unfold totalPagesOf
  rw [Int.fdiv_eq_ediv _ (by omega : (0 : ℤ) ≤ p)]
  have hdm := Int.ediv_add_emod (c + p - 1) p
  have hr0 : 0 ≤ (c + p - 1) % p := Int.emod_nonneg _ (by omega)
  have hrp : (c + p - 1) % p < p := Int.emod_lt_of_pos _ hp0
  have h₁ : ((c + p - 1) / p - 1) * p < c := by nlinarith
  have h₂ : c ≤ ((c + p - 1) / p) * p := by nlinarith
  symm
  rw [Int.ceil_eq_iff]
  constructor
  · rw [show (((c + p - 1) / p : ℤ) : ℚ) - 1
        = (((c + p - 1) / p - 1 : ℤ) : ℚ) by push_cast; ring,
      lt_div_iff₀ hpq]
    exact_mod_cast h₁
  · rw [div_le_iff₀ hpq]
    exact_mod_cast h₂

/-- C9: for a query whose known (cached) object count is `c ≥ 0` and whose
page size is `p ≥ 1`, `total_pages` equals the integer ceiling of `c / p`,
and no further request is needed to compute it. -/
theorem total_pages_is_ceiling (srv : SrvCount) (q : QueryState) (c p : Int)
    (hq : q.count_cached = some c) (hps : q.page_size = p)
    (hc : 0 ≤ c) (hp : 1 ≤ p) :
    (totalPagesProp srv q).2 = ⌈(c : ℚ) / (p : ℚ)⌉
    ∧ (totalPagesProp srv q).1 = q := by
  have : totalPagesProp srv q = (q, totalPagesOf c p) := by
    simp [totalPagesProp, countProp, hq, hps]
  rw [this]
  exact ⟨totalPagesOf_eq_ceil c p hc hp, rfl⟩

/-- Witness for `total_pages_is_ceiling`, instantiating the claim's
scenario: a collection response reported `meta.total_count = 37`; with page
size 100 the query's `count` reads 37 (one request on the first read, none
after) and `total_pages` is `⌈37/100⌉ = 1`. -/
theorem total_pages_is_ceiling_witness :
    (stepQ (fun _ _ _ => 37) initQuery .readCount).1.count_cached = some 37
    ∧ (stepQ (fun _ _ _ => 37) initQuery .readCount).2 = 1
    ∧ (totalPagesProp (fun _ _ _ => 37)
        (stepQ (fun _ _ _ => 37) initQuery .readCount).1).2
      = ⌈(37 : ℚ) / (100 : ℚ)⌉
    ∧ (totalPagesProp (fun _ _ _ => 37)
        (stepQ (fun _ _ _ => 37) initQuery .readCount).1).2 = 1 := by
  have h := total_pages_is_ceiling (fun _ _ _ => 37)
    (stepQ (fun _ _ _ => 37) initQuery .readCount).1 37 100 rfl rfl
    (by norm_num) (by norm_num)
  refine ⟨rfl, rfl, h.1, ?_⟩
  rw [h.1]
  norm_num
  rw [show ((37 : ℚ) / 100) = (37 / 100 : ℚ) from rfl]
  norm_num [Int.ceil_eq_iff]

/-- Whether the classifier outcome is a successfully raised typed API
error. -/
def isTypedApiError : ClassifyResult → Bool
  | .err (.api _) => true
  | _ => false

/-- Whether an envelope `data` value survives `cls(**errordata)`: it must
be a dict holding a `message` entry, and none of its keys may collide with
the constructor's `self` parameter (any other string key is a legal
keyword for `**kwargs`). -/
def dataConstructible : Json → Bool
  | .obj fs => (fs.lookup "message").isSome && (fs.lookup "self").isNone
  | _ => false

/-- On a well-formed JSON envelope whose status code avoids the
5xx/403/404/405 branches and whose status is truthy and not `"OK"`, the
classifier reaches the table branch of lines 282-292. -/
lemma check_final_branch (code : Nat) (fs : List (String × Json)) (sj dj : Json)
    (h5 : ¬(500 ≤ code ∧ code < 600))
    (h403 : code ≠ 403) (h404 : code ≠ 404) (h405 : code ≠ 405)
    (hst : fs.lookup "status" = some sj) (htr : jTruthy sj = true)
    (hok : jEqStr sj "OK" = false)
    (hdat : fs.lookup "data" = some dj) :
    check_api_response (mkJsonResp code fs) none
      = constructError (tableGet sj) dj := by
  simp [check_api_response, effectiveExpect, mkJsonResp, respOk,
    envelopeBranch, hst, htr, hok, hdat, h403, h404, h405, h5]

/-- Counterexample to C2 as stated: a 400 response with the well-formed
envelope `{"status": "SOME_NEW_STATUS", "data": {}}` satisfies every
condition of the claim, yet no typed request-data error is raised — the
constructor call `RequestDataError(**{})` itself fails with `TypeError`
because the required `message` argument is missing. -/
theorem table_branch_missing_message_typeerror :
    check_api_response
      (mkJsonResp 400
        [("status", .str "SOME_NEW_STATUS"), ("data", .obj [])]) none
      = .err (.py "TypeError")
    ∧ isTypedApiError (check_api_response
        (mkJsonResp 400
          [("status", .str "SOME_NEW_STATUS"), ("data", .obj [])]) none)
      = false := ⟨rfl, rfl⟩

/-- C2 (amended): on every response reaching the table branch whose
envelope `data` is a dict containing a `message` entry (and no key
colliding with the constructor's `self` parameter), the classifier raises
exactly the error class given by the fixed table — the unrecognized status
falling back to the generic request-data error — constructed from the
envelope's `data` entries (`message` as the message, `field`/`field_path`
extracted, the rest as extra data); the table itself maps each listed
status string as specified. -/
theorem table_classification (code : Nat) (fs ds : List (String × Json))
    (sj m : Json)
    (h5 : ¬(500 ≤ code ∧ code < 600))
    (h403 : code ≠ 403) (h404 : code ≠ 404) (h405 : code ≠ 405)
    (hst : fs.lookup "status" = some sj) (htr : jTruthy sj = true)
    (hok : jEqStr sj "OK" = false)
    (hdat : fs.lookup "data" = some (.obj ds))
    (hmsg : ds.lookup "message" = some m)
    (hself : ds.lookup "self" = none) :
    check_api_response (mkJsonResp code fs) none
      = .err (.api (mkError (tableGet sj) m
          (ds.filter fun p => p.1 != "message")))
    ∧ tableGet (.str "MISSING_QUERY_PARAMETER") = .requestForm
    ∧ tableGet (.str "INVALID_QUERY_PARAMETER") = .requestForm
    ∧ tableGet (.str "INVALID_PARAMETER") = .invalidFieldValue
    ∧ tableGet (.str "INVALID_PARAMETER_COMBINATION") = .invalidFieldCombination
    ∧ tableGet (.str "READ_ONLY_PARAMETER") = .readOnlyField
    ∧ tableGet (.str "UNKNOWN_PARAMETER") = .unknownField
    ∧ tableGet (.str "INVALID_OBJECT_STATE") = .invalidObjectState
    ∧ tableGet (.str "ANY_UNRECOGNIZED_STATUS") = .requestData := by
  refine ⟨?_, rfl, rfl, rfl, rfl, rfl, rfl, rfl, rfl⟩
  rw [check_final_branch code fs sj (.obj ds) h5 h403 h404 h405 hst htr hok hdat]
  simp [constructError, hmsg, hself]

/-- Witness for `table_classification`: a 400 response with status
`INVALID_PARAMETER` and data
`{"message": "bad", "field": "amount", "extra": 1}` raises
`InvalidFieldValueError` with message `"bad"`, field `"amount"` and the
remaining entry as extra data. -/
theorem table_classification_witness :
    check_api_response
      (mkJsonResp 400
        [("status", .str "INVALID_PARAMETER"),
         ("data", .obj [("message", .str "bad"), ("field", .str "amount"),
                        ("extra", .num 1)])]) none
      = .err (.api (mkError .invalidFieldValue (.str "bad")
          [("field", .str "amount"), ("extra", .num 1)])) := by
  have h := table_classification 400
    [("status", .str "INVALID_PARAMETER"),
     ("data", .obj [("message", .str "bad"), ("field", .str "amount"),
                    ("extra", .num 1)])]
    [("message", .str "bad"), ("field", .str "amount"), ("extra", .num 1)]
    (.str "INVALID_PARAMETER") (.str "bad")
    (by omega) (by omega) (by omega) (by omega) rfl rfl rfl rfl rfl rfl
  exact h.1

/-- C10: in the table branch, a typed API error is successfully raised
exactly when the envelope's `data` is a dict containing a `message` key
with no `self` key collision; whenever that fails — a `data` array, a dict
without `message` — the classifier itself dies with `TypeError`, because
`BillogramAPIError.__init__` takes the message as its required first
argument and the data entries are splatted as keyword arguments. -/
theorem table_error_construction_guard (code : Nat)
    (fs : List (String × Json)) (sj dj : Json)
    (h5 : ¬(500 ≤ code ∧ code < 600))
    (h403 : code ≠ 403) (h404 : code ≠ 404) (h405 : code ≠ 405)
    (hst : fs.lookup "status" = some sj) (htr : jTruthy sj = true)
    (hok : jEqStr sj "OK" = false)
    (hdat : fs.lookup "data" = some dj) :
    isTypedApiError (check_api_response (mkJsonResp code fs) none)
      = dataConstructible dj
    ∧ (dataConstructible dj = false →
        check_api_response (mkJsonResp code fs) none = .err (.py "TypeError")) := by
  rw [check_final_branch code fs sj dj h5 h403 h404 h405 hst htr hok hdat]
  cases dj with
  | obj ds =>
    by_cases hs : (ds.lookup "self").isSome
    · simp [constructError, dataConstructible, hs, isTypedApiError,
        Option.isNone_iff_eq_none.mpr]
    · simp only [Option.not_isSome_iff_eq_none] at hs
      cases hm : ds.lookup "message" with
      | some m => simp [constructError, dataConstructible, hs, hm, isTypedApiError]
      | none => simp [constructError, dataConstructible, hs, hm, isTypedApiError]
  | null => exact ⟨rfl, fun _ => rfl⟩
  | bool b => exact ⟨rfl, fun _ => rfl⟩
  | num n => exact ⟨rfl, fun _ => rfl⟩
  | str s => exact ⟨rfl, fun _ => rfl⟩
  | arr xs => exact ⟨rfl, fun _ => rfl⟩

/-- Witness for `table_error_construction_guard`: a 400 response whose
envelope `data` is the array `[]` raises `TypeError`, not a typed API
error. -/
theorem table_error_construction_guard_witness :
    isTypedApiError (check_api_response
      (mkJsonResp 400
        [("status", .str "SOME_STATUS"), ("data", .arr [])]) none)
      = dataConstructible (.arr [])
    ∧ check_api_response
        (mkJsonResp 400
          [("status", .str "SOME_STATUS"), ("data", .arr [])]) none
      = .err (.py "TypeError") := by
  have h := table_error_construction_guard 400
    [("status", .str "SOME_STATUS"), ("data", .arr [])]
    (.str "SOME_STATUS") (.arr [])
    (by omega) (by omega) (by omega) (by omega) rfl rfl rfl rfl
  exact ⟨h.1, h.2 rfl⟩

/-- A successful association-list lookup exhibits a member. -/
lemma lookup_mem {α β : Type} [BEq α] [LawfulBEq α] {l : List (α × β)}
    {k : α} {w : β} (h : l.lookup k = some w) : (k, w) ∈ l := by
  induction l with
  | nil => cases h
  | cons e t ih =>
    rw [List.lookup] at h
    by_cases hk : k == e.1
    · simp [hk] at h
      have hke : k = e.1 := eq_of_beq hk
      subst hke
      subst h
      exact List.mem_cons_self _ _
    · simp [Bool.of_not_eq_true hk] at h
      exact List.mem_cons_of_mem _ (ih h)

/-- Python dict equality makes lookups agree at every key. -/
lemma dictEqb_lookup {d₁ d₂ : Dict} (h : dictEqb d₁ d₂ = true) (k : String) :
    d₁.lookup k = d₂.lookup k := by
  rw [dictEqb, Bool.and_eq_true, List.all_eq_true, List.all_eq_true] at h
  obtain ⟨h₁, h₂⟩ := h
  cases hc : d₁.lookup k with
  | some w =>
    have h₁' : d₂.lookup k = some w := by simpa using h₁ _ (lookup_mem hc)
    exact h₁'.symm
  | none =>
    cases hc' : d₂.lookup k with
    | none => rfl
    | some w =>
      have h₂' : d₁.lookup k = some w := by simpa using h₂ _ (lookup_mem hc')
      rw [hc] at h₂'
      cases h₂'

/-- Filter validity is determined by the lookups at the three filter keys,
so dict-equal specifications are equally valid. -/
lemma dictEqb_filterValid {d₁ d₂ : Dict} (h : dictEqb d₁ d₂ = true) :
    filterValidB d₁ = filterValidB d₂ := by
  rw [filterValidB, filterValidB,
    dictEqb_lookup h "filter_type", dictEqb_lookup h "filter_field",
    dictEqb_lookup h "filter_value"]

/-- A non-empty dict is never dict-equal to the empty dict. -/
lemma dictEqb_nil_of_ne {v : Dict} (hne : v ≠ []) :
    dictEqb v [] = false := by
  cases v with
  | nil => exact absurd rfl hne
  | cons e t =>
    rw [dictEqb]
    simp [List.lookup]

/-- An accepted filter assignment yields either the unchanged state (the
early-return case) or a state with no cached count. -/
lemma filterSetE_ok_cases {q q' : QueryState} {v : Dict}
    (hs : filterSetE q v = .ok q') :
    (q' = q ∧ dictEqb v q.filter = true) ∨ q'.count_cached = none := by
  rw [filterSetE] at hs
  split at hs
  · cases hs
    exact Or.inl ⟨rfl, by assumption⟩
  · split at hs
    · cases hs
      exact Or.inr rfl
    · split at hs
      · cases hs
        exact Or.inr rfl
      · cases hs

/-- An accepted filter assignment that differs from the current filter
leaves no cached count. -/
lemma filterSetE_changed_clears {q q' : QueryState} {v : Dict}
    (hacc : filterSetE q v = .ok q')
    (hch : dictEqb v q.filter = false) :
    q'.count_cached = none := by
  rcases filterSetE_ok_cases hacc with ⟨_, heq⟩ | h
  · rw [heq] at hch
    cases hch
  · exact h

/-- An accepted order assignment changes only the order. -/
lemma orderSetE_ok_cache {q q' : QueryState} {v : Dict}
    (hs : orderSetE q v = .ok q') :
    q'.count_cached = q.count_cached := by
  rw [orderSetE] at hs
  split at hs
  · cases hs
    rfl
  · split at hs
    · cases hs
      rfl
    · cases hs

/-- An accepted page-size assignment changes only the page size. -/
lemma pageSizeSetE_ok_cache {q q' : QueryState} {n : Int}
    (hs : pageSizeSetE q n = .ok q') :
    q'.count_cached = q.count_cached := by
  rw [pageSizeSetE] at hs
  split at hs
  · cases hs
    rfl
  · cases hs

/-- Any operation other than reading `count` leaves an absent cached count
absent (the only writer of the cache is `_make_query`). -/
lemma stepQ_none_preserved (srv : SrvCount) (q : QueryState) (op : QOp)
    (hop : op ≠ QOp.readCount) (h : q.count_cached = none) :
    (stepQ srv q op).1.count_cached = none := by
  cases op with
  | readCount => exact absurd rfl hop
  | setFilter v =>
    rw [stepQ]
    cases hs : filterSetE q v with
    | error e => exact h
    | ok q' =>
      rcases filterSetE_ok_cases hs with ⟨heq, _⟩ | h'
      · rw [heq]
        exact h
      · exact h'
  | setOrder v =>
    rw [stepQ]
    cases hs : orderSetE q v with
    | error e => exact h
    | ok q' => simpa [orderSetE_ok_cache hs] using h
  | setPageSize n =>
    rw [stepQ]
    cases hs : pageSizeSetE q n with
    | error e => exact h
    | ok q' => simpa [pageSizeSetE_ok_cache hs] using h

/-- A run containing no `count` read keeps an absent cached count absent. -/
lemma runQ_none_preserved (srv : SrvCount) (ops : List QOp) :
    ∀ q : QueryState, (∀ op ∈ ops, op ≠ QOp.readCount) →
    q.count_cached = none → (runQ srv q ops).1.count_cached = none := by
  induction ops with
  | nil => intro q _ h; exact h
  | cons op t ih =>
    intro q hops h
    rw [runQ]
    exact ih _ (fun o ho => hops o (List.mem_cons_of_mem _ ho))
      (stepQ_none_preserved srv q op (hops op (List.mem_cons_self _ _)) h)

/-- Any operation other than a filter assignment preserves a present cached
count and issues no remote request. -/
lemma stepQ_some_preserved (srv : SrvCount) (q : QueryState) (op : QOp)
    (c : Int) (hop : ∀ v, op ≠ QOp.setFilter v) (h : q.count_cached = some c) :
    (stepQ srv q op).1.count_cached = some c ∧ (stepQ srv q op).2 = 0 := by
  cases op with
  | readCount =>
    rw [stepQ, h]
    exact ⟨h, rfl⟩
  | setFilter v => exact absurd rfl (hop v)
  | setOrder v =>
    rw [stepQ]
    cases hs : orderSetE q v with
    | error e => exact ⟨h, rfl⟩
    | ok q' => exact ⟨by rw [orderSetE_ok_cache hs, h], rfl⟩
  | setPageSize n =>
    rw [stepQ]
    cases hs : pageSizeSetE q n with
    | error e => exact ⟨h, rfl⟩
    | ok q' => exact ⟨by rw [pageSizeSetE_ok_cache hs, h], rfl⟩

/-- A run without filter assignments, started with a cached count, issues
zero remote requests and keeps the cached count. -/
lemma runQ_some_zero (srv : SrvCount) (ops : List QOp) :
    ∀ (q : QueryState) (c : Int), (∀ op ∈ ops, ∀ v, op ≠ QOp.setFilter v) →
    q.count_cached = some c →
    (runQ srv q ops).1.count_cached = some c ∧ (runQ srv q ops).2 = 0 := by
  induction ops with
  | nil => intro q c _ h; exact ⟨h, rfl⟩
  | cons op t ih =>
    intro q c hops h
    have hstep := stepQ_some_preserved srv q op c
      (hops op (List.mem_cons_self _ _)) h
    have hrest := ih (stepQ srv q op).1 c
      (fun o ho => hops o (List.mem_cons_of_mem _ ho)) hstep.1
    rw [runQ]
    exact ⟨hrest.1, by rw [hstep.2, hrest.2]⟩

/-- C7: reading `count` issues exactly one remote request — the page-size-1
query of `_make_query(1, 1)`, whose `meta.total_count` is cached — the
first time it is read after the query's creation (or after any run of
non-reading operations from a state with no cached count), and zero
requests on all later reads as long as the filter is not reassigned; an
accepted filter assignment differing from the current filter empties the
cache again, restarting the cycle. -/
theorem count_request_discipline (srv : SrvCount) (q₀ qa qf : QueryState)
    (ops₁ ops₂ : List QOp) (v : Dict)
    (h₀ : q₀.count_cached = none)
    (h₁ : ∀ op ∈ ops₁, op ≠ QOp.readCount)
    (h₂ : ∀ op ∈ ops₂, ∀ w, op ≠ QOp.setFilter w)
    (hfs : filterSetE qa v = .ok qf)
    (hne : dictEqb v qa.filter = false) :
    initQuery.count_cached = none
    ∧ (stepQ srv (runQ srv q₀ ops₁).1 .readCount).2 = 1
    ∧ (stepQ srv (runQ srv q₀ ops₁).1 .readCount).1.count_cached
        = some (srv 1 1 (queryArgs (runQ srv q₀ ops₁).1))
    ∧ (runQ srv (stepQ srv (runQ srv q₀ ops₁).1 .readCount).1
        (ops₂ ++ [QOp.readCount])).2 = 0
    ∧ qf.count_cached = none := by
  have hq₁ : (runQ srv q₀ ops₁).1.count_cached = none :=
    runQ_none_preserved srv ops₁ q₀ h₁ h₀
  have hread : stepQ srv (runQ srv q₀ ops₁).1 .readCount
      = ({ (runQ srv q₀ ops₁).1 with
            count_cached := some (srv 1 1 (queryArgs (runQ srv q₀ ops₁).1)) },
         1) := by
    rw [stepQ, hq₁]
  have hops₂' : ∀ op ∈ ops₂ ++ [QOp.readCount], ∀ w, op ≠ QOp.setFilter w := by
    intro op ho w
    rcases List.mem_append.mp ho with h | h
    · exact h₂ op h w
    · rw [List.mem_singleton.mp h]
      intro hcontra
      cases hcontra
  refine ⟨rfl, by rw [hread], by rw [hread], ?_, filterSetE_changed_clears hfs hne⟩
  have := runQ_some_zero srv (ops₂ ++ [QOp.readCount])
    (stepQ srv (runQ srv q₀ ops₁).1 .readCount).1
    (srv 1 1 (queryArgs (runQ srv q₀ ops₁).1)) hops₂' (by rw [hread])
  exact this.2

/-- Witness for `count_request_discipline`: from a fresh query, after a
page-size change, the first `count` read issues one request and caches the
server's total 37; a later read after an order change issues none; and an
accepted filter change from the fresh query empties the cache. -/
theorem count_request_discipline_witness :
    initQuery.count_cached = none
    ∧ (stepQ (fun _ _ _ => 37)
        (runQ (fun _ _ _ => 37) initQuery [QOp.setPageSize 10]).1 .readCount).2 = 1
    ∧ (stepQ (fun _ _ _ => 37)
        (runQ (fun _ _ _ => 37) initQuery [QOp.setPageSize 10]).1 .readCount).1.count_cached
        = some ((fun (_ _ : Int) (_ : Dict) => (37 : Int)) 1 1
            (queryArgs (runQ (fun _ _ _ => 37) initQuery [QOp.setPageSize 10]).1))
    ∧ (runQ (fun _ _ _ => 37)
        (stepQ (fun _ _ _ => 37)
          (runQ (fun _ _ _ => 37) initQuery [QOp.setPageSize 10]).1 .readCount).1
        ([QOp.setOrder [("order_field", "x"), ("order_direction", "asc")],
          QOp.readCount] ++ [QOp.readCount])).2 = 0
    ∧ (Except.ok
        { filter := [("filter_type", "field"), ("filter_field", "state"),
                     ("filter_value", "Unpaid")]
          order := ([] : Dict), page_size := (100 : Int),
          count_cached := (none : Option Int) } : Except PyErr QueryState).toOption.map
        QueryState.count_cached = some none := by
  have h := count_request_discipline (fun _ _ _ => 37) initQuery initQuery
    { filter := [("filter_type", "field"), ("filter_field", "state"),
                 ("filter_value", "Unpaid")]
      order := [], page_size := 100, count_cached := none }
    [QOp.setPageSize 10]
    [QOp.setOrder [("order_field", "x"), ("order_direction", "asc")],
     QOp.readCount]
    [("filter_type", "field"), ("filter_field", "state"),
     ("filter_value", "Unpaid")]
    rfl
    (by intro op ho; simp at ho; rw [ho]; intro hcontra; cases hcontra)
    (by intro op ho w
        simp at ho
        rcases ho with h | h <;> (rw [h]; intro hcontra; cases hcontra))
    rfl rfl
  exact ⟨h.1, h.2.1, h.2.2.1, h.2.2.2.1, rfl⟩

/-- Counterexample to C8 as stated: assigning the empty filter to a query
whose filter is already empty but whose count is cached (here 37) is
accepted — the setter's early return at line 511-512 fires — yet the
cached count survives, so not *every* accepted filter assignment clears
the cache. -/
theorem filter_noop_assignment_keeps_cache :
    filterSetE
      { filter := [], order := [], page_size := 100, count_cached := some 37 }
      []
      = .ok { filter := [], order := [], page_size := 100,
              count_cached := some 37 }
    ∧ ({ filter := [], order := [], page_size := 100,
         count_cached := some 37 } : QueryState).count_cached ≠ none :=
  ⟨rfl, by simp⟩

/-- C8 (amended): through the public interface the current filter is
always empty or valid, and under that invariant assigning a non-empty
specification that fails the validation (missing key or bad type) raises
`AssertionError` locally — the setter makes no remote request and leaves
the query unchanged; and every accepted assignment that *differs from the
current filter* clears the cached count (an assignment equal to the
current filter is accepted as a no-op and keeps the cache, per the
counterexample). -/
theorem filter_setter_contract (srv : SrvCount) (q q₂ q₂' : QueryState)
    (v v₂ : Dict)
    (hInv : q.filter = [] ∨ filterValidB q.filter = true)
    (hne : v ≠ []) (hbad : filterValidB v = false)
    (hacc : filterSetE q₂ v₂ = .ok q₂')
    (hch : dictEqb v₂ q₂.filter = false) :
    filterSetE q v = .error .assertionError
    ∧ stepQ srv q (.setFilter v) = (q, 0)
    ∧ q₂'.count_cached = none := by
  have hdne : dictEqb v q.filter = false := by
    cases hd : dictEqb v q.filter with
    | false => rfl
    | true =>
      exfalso
      rcases hInv with h0 | hval
      · rw [h0] at hd
        rw [dictEqb_nil_of_ne hne] at hd
        cases hd
      · rw [dictEqb_filterValid hd, hval] at hbad
        cases hbad
  have hset : filterSetE q v = .error .assertionError := by
    rw [filterSetE, hdne]
    have hie : v.isEmpty = false := by
      cases v with
      | nil => exact absurd rfl hne
      | cons e t => rfl
    simp [hie, hbad]
  refine ⟨hset, ?_, filterSetE_changed_clears hacc hch⟩
  rw [stepQ, hset]

/-- Witness for `filter_setter_contract`: a fresh query rejects the
incomplete specification `{"filter_type": "field"}` (no field/value) with
an assertion error and no request; and the accepted complete assignment
`{"filter_type": "field", "filter_field": "state", "filter_value": "Paid"}`
to a query with a cached count clears the cache. -/
theorem filter_setter_contract_witness :
    filterSetE initQuery [("filter_type", "field")]
      = .error .assertionError
    ∧ stepQ (fun _ _ _ => 37) initQuery
        (.setFilter [("filter_type", "field")]) = (initQuery, 0)
    ∧ ({ filter := [("filter_type", "field"), ("filter_field", "state"),
                    ("filter_value", "Paid")]
         order := ([] : Dict), page_size := (100 : Int),
         count_cached := (none : Option Int) } : QueryState).count_cached
      = none := by
  have h := filter_setter_contract (fun _ _ _ => 37) initQuery
    { filter := [], order := [], page_size := 100, count_cached := some 37 }
    { filter := [("filter_type", "field"), ("filter_field", "state"),
                 ("filter_value", "Paid")]
      order := [], page_size := 100, count_cached := none }
    [("filter_type", "field")]
    [("filter_type", "field"), ("filter_field", "state"),
     ("filter_value", "Paid")]
    (Or.inl rfl) (by simp) rfl rfl rfl
  exact h

/-- Every setter call on the original query only ever *appends* to the dict
heap: dicts already reachable are never modified in place
(`self._filter = dict(value)` rebinds, it does not mutate). -/
lemma applyMutRef_heap_extends (h : Heap) (q : QueryRef) (m : QueryMutation) :
    ∃ t : Heap, (applyMutRef h q m).1 = h ++ t := by
  cases m with
  | setFilter v =>
    rw [applyMutRef, setFilterRef]
    split
    · exact ⟨[], (List.append_nil h).symm⟩
    · split
      · exact ⟨[[]], rfl⟩
      · split
        · exact ⟨[v], rfl⟩
        · exact ⟨[], (List.append_nil h).symm⟩
  | setOrder v =>
    rw [applyMutRef, setOrderRef]
    split
    · exact ⟨[[]], rfl⟩
    · split
      · exact ⟨[v], rfl⟩
      · exact ⟨[], (List.append_nil h).symm⟩
  | setPageSize n =>
    rw [applyMutRef, setPageSizeRef]
    split
    · exact ⟨[], (List.append_nil h).symm⟩
    · exact ⟨[], (List.append_nil h).symm⟩

/-- A whole mutation sequence only appends to the dict heap. -/
lemma applyMutsRef_heap_extends (ms : List QueryMutation) :
    ∀ (h : Heap) (q : QueryRef), ∃ t : Heap,
      (applyMutsRef h q ms).1 = h ++ t := by
  induction ms with
  | nil =>
    intro h q
    exact ⟨[], (List.append_nil h).symm⟩
  | cons m t ih =>
    intro h q
    obtain ⟨t₁, ht₁⟩ := applyMutRef_heap_extends h q m
    obtain ⟨t₂, ht₂⟩ := ih (applyMutRef h q m).1 (applyMutRef h q m).2
    refine ⟨t₁ ++ t₂, ?_⟩
    rw [applyMutsRef, ht₂, ht₁, List.append_assoc]

/-- Appending to the heap does not change what an existing reference
dereferences to. -/
lemma heapGet_append (h t : Heap) (r : Nat) (hr : r < h.length) :
    heapGet (h ++ t) r = heapGet h r := by
  rw [heapGet, heapGet, List.getD, List.getD]
  rw [show List.get? (h ++ t) r = List.get? h r by
    rw [List.get?_eq_getElem?, List.get?_eq_getElem?,
      List.getElem?_append_left hr]]

/-- C3: once `iter_all` has taken its `copy.copy` snapshot, any sequence of
setter mutations on the original query (reassigning the filter, the order
or the page size) leaves every parameter the snapshot observes — filter
content, order content, page size, cached count — untouched, so the object
sequence the in-progress iteration produces is identical to the sequence of
an unmutated run. -/
theorem iter_all_snapshot_semantics (srvP : SrvPage) (srvC : SrvCount)
    (h : Heap) (q : QueryRef) (muts : List QueryMutation)
    (hf : q.filterRef < h.length) (ho : q.orderRef < h.length) :
    observeQ (applyMutsRef h q muts).1 (copyShallow q) = observeQ h (copyShallow q)
    ∧ iterAllSeq srvP srvC (observeQ (applyMutsRef h q muts).1 (copyShallow q))
      = iterAllSeq srvP srvC (observeQ h (copyShallow q)) := by
  obtain ⟨t, ht⟩ := applyMutsRef_heap_extends muts h q
  have hobs : observeQ (applyMutsRef h q muts).1 (copyShallow q)
      = observeQ h (copyShallow q) := by
    rw [ht, observeQ, observeQ, copyShallow,
      heapGet_append h t _ hf, heapGet_append h t _ ho]
  exact ⟨hobs, by rw [hobs]⟩

/-- Witness for `iter_all_snapshot_semantics`: a query whose filter and
order dicts live at heap cells 0 and 1; after the original is mutated by a
filter assignment, an order assignment and a page-size change, the
snapshot still observes the original parameters, and the iteration output
over a concrete two-page server is unchanged. -/
theorem iter_all_snapshot_semantics_witness :
    observeQ
      (applyMutsRef [[], []] ⟨0, 1, 100, none⟩
        [.setFilter [("filter_type", "field"), ("filter_field", "state"),
                     ("filter_value", "Paid")],
         .setOrder [("order_field", "x"), ("order_direction", "desc")],
         .setPageSize 5]).1
      (copyShallow ⟨0, 1, 100, none⟩)
      = observeQ [[], []] (copyShallow ⟨0, 1, 100, none⟩)
    ∧ iterAllSeq (fun _ p => [.num p]) (fun _ _ _ => 150)
        (observeQ
          (applyMutsRef [[], []] ⟨0, 1, 100, none⟩
            [.setFilter [("filter_type", "field"), ("filter_field", "state"),
                         ("filter_value", "Paid")],
             .setOrder [("order_field", "x"), ("order_direction", "desc")],
             .setPageSize 5]).1
          (copyShallow ⟨0, 1, 100, none⟩))
      = iterAllSeq (fun _ p => [.num p]) (fun _ _ _ => 150)
          (observeQ [[], []] (copyShallow ⟨0, 1, 100, none⟩)) :=
  iter_all_snapshot_semantics (fun _ p => [.num p]) (fun _ _ _ => 150)
    [[], []] ⟨0, 1, 100, none⟩
    [.setFilter [("filter_type", "field"), ("filter_field", "state"),
                 ("filter_value", "Paid")],
     .setOrder [("order_field", "x"), ("order_direction", "desc")],
     .setPageSize 5]
    (by simp) (by simp)

end Billogram
